import Mathlib

/-
Verification development for the AA flight-search service
(app/services/aa_client.py, app/services/cookie_manager.py,
app/services/browser_manager.py, app/core/exceptions.py).

The Python code is shallowly embedded: network and browser effects are
abstracted to oracle streams supplied as arguments, and the observable
effects of one call (HTTP attempt counts, cookie refreshes, rotation
notifications) are tracked in an explicit trace.
-/

namespace AAClient

/-- Status codes that force a cookie refresh and a retry in the direct
(httpx) tier; mirrors `_REFRESH_STATUS_CODES` at the top of
`app/services/aa_client.py`, which is the Python set literal
with members 401, 403, 419 and 429. -/
def REFRESH_STATUS_CODES : List Nat := [401, 403, 419, 429]

/-- Response observed by the direct tier: the HTTP status code and the body
text of one `_perform_request` call. -/
structure HttpResponse where
  status : Nat
  text : String
deriving DecidableEq, Repr

/-- Outcome of one iteration of the browser-fallback loop in
`_perform_playwright_fetch`: a `TargetClosedError` raised during the page
operations, a non-dict evaluation result, a result dict carrying an
`error` field, or a response dict with an optional integer status and a
body text (`result.get("status")` may be absent or not an int, which the
code treats the same way; `none` covers both). -/
inductive FallbackAttempt where
  | targetClosed
  | notDict
  | scriptError (msg : String)
  | response (status : Option Nat) (text : String)
deriving DecidableEq, Repr

/-- Errors raised by `get_itinerary` and `_perform_playwright_fetch`; each
constructor corresponds to one distinct `RuntimeError` raise site in
`app/services/aa_client.py`.  `fallbackExhausted` is the raise after the
three-iteration fallback loop ends; its Boolean records whether a
`TargetClosedError` was observed (the `from last_exception` clause). -/
inductive AAError where
  | upstreamHttp (status : Nat) (body : String)
  | emptyBody
  | parseFailure
  | unexpectedPayload
  | scriptError (msg : String)
  | fallbackExhausted (lastTargetClosed : Bool)
deriving DecidableEq, Repr

/-- Observable side effects of one `get_itinerary` call.
`successNotifications` counts calls to
`browser_manager.register_successful_request`; `get_itinerary` contains no
such call, so the embedding never increments it. -/
structure Trace where
  directAttempts : Nat := 0
  fallbackAttempts : Nat := 0
  directRefreshes : Nat := 0
  fallbackRefreshes : Nat := 0
  postSuccessRefreshes : Nat := 0
  successNotifications : Nat := 0
deriving DecidableEq, Repr

/-- Result dict returned by `get_itinerary`: the status (absent for a
fallback result whose dict carried no integer status) and the decoded
body.  The body type is abstract; `json.loads` is the oracle `parse`. -/
structure ItinResult (β : Type) where
  status : Option Nat
  body : β
deriving DecidableEq, Repr

/-- Body handling shared textually by both tiers of
`app/services/aa_client.py`: a falsy (empty) body raises the empty-body
error, a body `json.loads` rejects raises the parse error, otherwise the
decoded body is returned. -/
def parseBody (parse : String → Option β) (status : Option Nat) (text : String) :
    Except AAError (ItinResult β) :=
  if text = "" then .error .emptyBody
  else
    match parse text with
    | none => .error .parseFailure
    | some b => .ok ⟨status, b⟩

/-- Direct tier of `get_itinerary` (`for _ in range(2)` loop): a
refresh-triggering status refreshes the cookie bundle and retries; any
other status of at least 400 is a terminal upstream error; otherwise the
body is parsed.  `none` in the first component means both attempts were
consumed and control falls through to the fallback tier.  The
`refresh_cookies()` awaits are modelled as succeeding; their own failure
behaviour is analysed in the `CookieManager` namespace. -/
def directLoop (parse : String → Option β) (dir : Nat → HttpResponse) :
    Nat → Nat → Trace → Option (Except AAError (ItinResult β)) × Trace
  | _, 0, t => (none, t)
  | i, fuel + 1, t =>
    if (dir i).status ∈ REFRESH_STATUS_CODES then
      directLoop parse dir (i + 1) fuel
        { t with directAttempts := t.directAttempts + 1,
                 directRefreshes := t.directRefreshes + 1 }
    else if 400 ≤ (dir i).status then
      (some (.error (.upstreamHttp (dir i).status (dir i).text)),
       { t with directAttempts := t.directAttempts + 1 })
    else
      (some (parseBody parse (some (dir i).status) (dir i).text),
       { t with directAttempts := t.directAttempts + 1 })

/-- Fallback tier `_perform_playwright_fetch` (`for _ in range(3)` loop): a
`TargetClosedError` refreshes cookies and retries; a non-dict result, an
`error` field, a status of at least 400, an empty body and an
undecodable body are all terminal; exhausting the three iterations
raises the fallback-exhausted error carrying the last
`TargetClosedError`. -/
def fallbackLoop (parse : String → Option β) (fb : Nat → FallbackAttempt) :
    Nat → Nat → Bool → Trace → Except AAError (ItinResult β) × Trace
  | _, 0, sawClosed, t => (.error (.fallbackExhausted sawClosed), t)
  | i, fuel + 1, _, t =>
    match fb i with
    | .targetClosed =>
        fallbackLoop parse fb (i + 1) fuel true
          { t with fallbackAttempts := t.fallbackAttempts + 1,
                   fallbackRefreshes := t.fallbackRefreshes + 1 }
    | .notDict =>
        (.error .unexpectedPayload,
         { t with fallbackAttempts := t.fallbackAttempts + 1 })
    | .scriptError m =>
        (.error (.scriptError m),
         { t with fallbackAttempts := t.fallbackAttempts + 1 })
    | .response st text =>
        match st with
        | some sc =>
            if 400 ≤ sc then
              (.error (.upstreamHttp sc text),
               { t with fallbackAttempts := t.fallbackAttempts + 1 })
            else
              (parseBody parse st text,
               { t with fallbackAttempts := t.fallbackAttempts + 1 })
        | none =>
            (parseBody parse st text,
             { t with fallbackAttempts := t.fallbackAttempts + 1 })

/-- Embedding of `get_itinerary`: two direct-tier attempts, then the
browser-fallback tier; after a fallback-tier success the cached cookie
bundle is refreshed once (`await refresh_cookies()` on line 312).  No
rotation-success notification is issued anywhere in the function. -/
def get_itinerary (parse : String → Option β) (dir : Nat → HttpResponse)
    (fb : Nat → FallbackAttempt) : Except AAError (ItinResult β) × Trace :=
  match directLoop parse dir 0 2 {} with
  | (some r, t) => (r, t)
  | (none, t) =>
    match fallbackLoop parse fb 0 3 false t with
    | (.ok r, t2) =>
        (.ok r, { t2 with postSuccessRefreshes := t2.postSuccessRefreshes + 1 })
    | (.error e, t2) => (.error e, t2)

/-- Single slice of the upstream payload built by `_build_payload`. -/
structure SlicePayload where
  allCarriers : Bool
  cabin : String
  departureDate : String
  destination : String
  destinationNearbyAirports : Bool
  maxStops : Option Nat
  origin : String
  originNearbyAirports : Bool
deriving DecidableEq, Repr

/-- The `tripOptions` object of the upstream payload. -/
structure TripOptions where
  corporateBooking : Bool
  fareType : String
  locale : String
  pointOfSale : Option String
  searchType : String
deriving DecidableEq, Repr

/-- The `queryParams` object of the upstream payload. -/
structure QueryParams where
  sliceIndex : Nat
  sessionId : String
  solutionSet : String
  solutionId : String
  sort : String
deriving DecidableEq, Repr

/-- Upstream request payload built by `_build_payload` (fields with fixed
constant values in the source keep those values here). -/
structure Payload where
  tripType : String
  searchMethod : String
  passengerType : String
  passengerCount : Nat
  clientId : String
  slices : List SlicePayload
  tripOptions : TripOptions
  loyaltyInfo : Option String
  version : String
  queryParams : QueryParams
deriving DecidableEq, Repr

/-- Embedding of `_build_payload`; Python `str.upper()` is
`String.toUpper`. -/
def build_payload (origin destination date : String) (passengers : Nat)
    (award_search : Bool) : Payload :=
  { tripType := "OneWay"
    searchMethod := "Lowest"
    passengerType := "adult"
    passengerCount := passengers
    clientId := "AAcom"
    slices := [{ allCarriers := true
                 cabin := ""
                 departureDate := date
                 destination := destination.toUpper
                 destinationNearbyAirports := false
                 maxStops := none
                 origin := origin.toUpper
                 originNearbyAirports := false }]
    tripOptions := { corporateBooking := false
                     fareType := "Lowest"
                     locale := "en_US"
                     pointOfSale := none
                     searchType := if award_search then "Award" else "Revenue" }
    loyaltyInfo := none
    version := "cfr"
    queryParams := { sliceIndex := 0
                     sessionId := ""
                     solutionSet := ""
                     solutionId := ""
                     sort := "CARRIER" } }

end AAClient

namespace CookieManager

/-
Operational model of `app/services/cookie_manager.py`.  Cookie bundles are
abstracted to natural numbers.  Each concurrent task runs `get_cookies` or
`refresh_cookies`; under asyncio's cooperative scheduling the code between
two awaits runs atomically, so every critical section guarded by
`async with _condition` is one atomic step, `await _condition.wait()`
suspends into a wait-set, and the network call
`await _refresh_cookies_internal()` (performed outside the lock) is its
own step whose outcome comes from an oracle stream indexed by how many
network refreshes have already run (`none` models the refresh raising).
-/

/-- Outcome of one `get_cookies`/`refresh_cookies` call: the bundle it
returned, or a raised exception. -/
inductive CallResult where
  | ok (b : Nat)
  | raised
deriving DecidableEq, Repr

/-- Program points of one task.  `gStart`: about to run the first critical
section of `get_cookies`; `gWoken`: woken inside the wait loop of
`get_cookies`; `rStart`/`rWoken`: likewise for `refresh_cookies`;
`netRefresh`: holds the refreshing flag and is about to perform the
network refresh; `netDone r`: network call finished with outcome `r` and
the final critical section is pending (this code is identical in both
functions); `finished r`: the call returned `r` or raised. -/
inductive TaskPC where
  | gStart
  | gWaiting
  | gWoken
  | rStart
  | rWaiting
  | rWoken
  | netRefresh
  | netDone (r : Option Nat)
  | finished (r : CallResult)
deriving DecidableEq, Repr

/-- Shared module state (`_cookies`, `_refreshing`) together with a count of
network refreshes performed so far and the program point of each task. -/
structure CMState where
  cookies : Option Nat
  refreshing : Bool
  refreshCount : Nat
  tasks : List TaskPC
deriving DecidableEq, Repr

/-- Effect of `_condition.notify_all()` on one waiting task. -/
def notifyPC : TaskPC → TaskPC
  | .gWaiting => .gWoken
  | .rWaiting => .rWoken
  | pc => pc

/-- Effect of `_condition.notify_all()` on the whole task list. -/
def notifyAll (l : List TaskPC) : List TaskPC := l.map notifyPC

/-- One atomic step of task `i` currently at program point `pc`.

`gStart`/`gWoken` (first critical section of `get_cookies`, and the body
of its wait loop after a wakeup — the code is the same test sequence):
with a cached bundle and no refresh in flight, return it; while a refresh
is in flight, wait; otherwise claim the refresh by setting the flag.

`rStart` (first critical section of `refresh_cookies`): drop the cache,
then wait while a refresh is in flight, else claim the refresh.  `rWoken`
re-tests only the flag, as the `while _refreshing` loop does.

`netRefresh`: perform the network refresh (outside the lock), consuming
the next oracle outcome.

`netDone`: final critical section, identical in both functions — store
the new bundle (on success), clear the flag, notify all waiters, and
return the bundle or re-raise the failure.

Tasks that are waiting or finished have no enabled step. -/
def stepPC (oracle : Nat → Option Nat) (s : CMState) (i : Nat) : TaskPC → CMState
  | .gStart | .gWoken =>
    match s.cookies, s.refreshing with
    | some b, false => { s with tasks := s.tasks.set i (.finished (.ok b)) }
    | _, true => { s with tasks := s.tasks.set i .gWaiting }
    | none, false =>
        { s with refreshing := true, tasks := s.tasks.set i .netRefresh }
  | .rStart =>
    if s.refreshing then { s with cookies := none, tasks := s.tasks.set i .rWaiting }
    else
      { s with cookies := none, refreshing := true,
               tasks := s.tasks.set i .netRefresh }
  | .rWoken =>
    if s.refreshing then { s with tasks := s.tasks.set i .rWaiting }
    else { s with refreshing := true, tasks := s.tasks.set i .netRefresh }
  | .netRefresh =>
    { s with refreshCount := s.refreshCount + 1,
             tasks := s.tasks.set i (.netDone (oracle s.refreshCount)) }
  | .netDone (some b) =>
    { s with cookies := some b, refreshing := false,
             tasks := notifyAll (s.tasks.set i (.finished (.ok b))) }
  | .netDone none =>
    { s with refreshing := false,
             tasks := notifyAll (s.tasks.set i (.finished .raised)) }
  | .gWaiting => s
  | .rWaiting => s
  | .finished _ => s

/-- Scheduler step: run task `i` if it exists (out-of-range indices are
no-ops). -/
def step (oracle : Nat → Option Nat) (s : CMState) (i : Nat) : CMState :=
  match s.tasks.get? i with
  | some pc => stepPC oracle s i pc
  | none => s

/-- Run a whole schedule (a list of task indices, executed in order). -/
def run (oracle : Nat → Option Nat) (s0 : CMState) (sched : List Nat) : CMState :=
  sched.foldl (step oracle) s0

/-- Initial state for `n` concurrent `get_cookies` callers with an empty
cache and no refresh in flight (one refresh cycle about to start). -/
def initGet (n : Nat) : CMState :=
  ⟨none, false, 0, List.replicate n .gStart⟩

/-- Initial state for `n` concurrent `refresh_cookies` callers. -/
def initRefresh (n : Nat) : CMState :=
  ⟨none, false, 0, List.replicate n .rStart⟩

/-- Program points holding the refreshing flag (between claiming it and the
final critical section). -/
def inFlight : TaskPC → Bool
  | .netRefresh => true
  | .netDone _ => true
  | _ => false

/-- Program points reachable by tasks that entered through `get_cookies`. -/
def getOnly : TaskPC → Bool
  | .rStart => false
  | .rWaiting => false
  | .rWoken => false
  | _ => true

/-- Inductive invariant of the model restricted to `get_cookies`-only
configurations driven by an always-succeeding refresh oracle
`fun k => some (f k)`. -/
structure Inv (f : Nat → Nat) (s : CMState) : Prop where
  allGet : ∀ i pc, s.tasks.get? i = some pc → getOnly pc = true
  countLe : s.refreshCount ≤ 1
  cookiesVal : ∀ b, s.cookies = some b → b = f 0 ∧ s.refreshCount = 1
  refrCookies : s.refreshing = true → s.cookies = none
  flightUnique : ∀ i j pci pcj, s.tasks.get? i = some pci →
      s.tasks.get? j = some pcj → inFlight pci = true → inFlight pcj = true → i = j
  flightRefr : ∀ i pc, s.tasks.get? i = some pc → inFlight pc = true →
      s.refreshing = true
  netRefreshZero : ∀ i, s.tasks.get? i = some .netRefresh → s.refreshCount = 0
  netDoneVal : ∀ i r, s.tasks.get? i = some (.netDone r) →
      r = some (f 0) ∧ s.refreshCount = 1
  doneVal : ∀ i r, s.tasks.get? i = some (.finished r) →
      r = .ok (f 0) ∧ s.refreshCount = 1
  oneState : s.refreshCount = 1 → s.refreshing = true ∨ s.cookies = some (f 0)

end CookieManager

namespace BrowserManager

/-
Model of `app/services/browser_manager.py`.  Playwright resources are
abstracted to presence flags; a page carries its open/closed state.
Outcomes of the Playwright calls `page.goto` and `page.wait_for_selector`
are supplied as arguments: success, a Playwright `TimeoutError`, or any
other failure.
-/

/-- Outcome of one Playwright page operation. -/
inductive PwOutcome where
  | ok
  | timeout
  | failure (msg : String)
deriving DecidableEq, Repr

/-- Browser tab handle; `isClosed` mirrors `page.is_closed()`. -/
structure Page where
  isClosed : Bool
deriving DecidableEq, Repr

/-- The `SearchType` literal of the source (`"Award"` / `"Revenue"`). -/
inductive SearchType where
  | award
  | revenue
deriving DecidableEq, Repr

/-- The `PairKey` literal of the source (`"webkit"` / `"firefox"`). -/
inductive PairKey where
  | webkit
  | firefox
deriving DecidableEq, Repr

/-- Embedding of the `BrowserPairState` dataclass: resource handles become
presence flags, the two pages keep their open/closed state. -/
structure BrowserPairState where
  engine : PairKey
  manager : Bool
  playwright : Bool
  award_browser : Bool
  cash_browser : Bool
  award_context : Bool
  cash_context : Bool
  award_page : Option Page
  cash_page : Option Page
  healthy : Bool
deriving DecidableEq, Repr

/-- Pair state in which every resource has been released
(the postcondition of `_teardown_pair`). -/
def releasedPair (k : PairKey) : BrowserPairState :=
  ⟨k, false, false, false, false, false, false, none, none, false⟩

/-- Fully initialized healthy pair (the state `_initialize_pair` establishes
when every launch and warm-up step succeeds; both warmed pages are open). -/
def initializedPair (k : PairKey) : BrowserPairState :=
  ⟨k, true, true, true, true, true, true, some ⟨false⟩, some ⟨false⟩, true⟩

/-- The context consulted by `_create_warmed_page` for the given search
type. -/
def contextOf (state : BrowserPairState) : SearchType → Bool
  | .award => state.award_context
  | .revenue => state.cash_context

/-- The stored shared page for the given search type. -/
def pageOf (state : BrowserPairState) : SearchType → Option Page
  | .award => state.award_page
  | .revenue => state.cash_page

/-- Store a page under the given search type (`setattr(state, page_attr, page)`). -/
def setPageOf (state : BrowserPairState) (search_type : SearchType)
    (p : Option Page) : BrowserPairState :=
  match search_type with
  | .award => { state with award_page := p }
  | .revenue => { state with cash_page := p }

/-- Errors of `_create_warmed_page`: the guard `RuntimeError` for a missing
context, the `BrowserFingerprintBannedException` raised when the caught
`TimeoutError` is classified as a ban, and any other Playwright failure,
which propagates unchanged. -/
inductive WarmupError where
  | contextMissing
  | fingerprintBanned
  | navFailure (msg : String)
deriving DecidableEq, Repr

/-- Result of `_create_warmed_page`.  On an error the Boolean records
whether the freshly created page was closed before raising (the
`await page.close()` in the `except TimeoutError` handler); when no page
was created (missing context) it is `false`. -/
inductive WarmupResult where
  | ok (page : Page)
  | error (e : WarmupError) (newPageClosed : Bool)
deriving DecidableEq, Repr

/-- Embedding of `_create_warmed_page`: require the context, open a page,
navigate to the homepage and wait for the warm-up selector; a
`TimeoutError` raised by either awaited call inside the `try` block is
caught, the page is closed, and the fingerprint-ban exception is raised;
any other failure propagates (without closing the page). -/
def create_warmed_page (state : BrowserPairState) (search_type : SearchType)
    (goto wait_for_selector : PwOutcome) : WarmupResult :=
  if contextOf state search_type = false then .error .contextMissing false
  else
    match goto with
    | .timeout => .error .fingerprintBanned true
    | .failure m => .error (.navFailure m) false
    | .ok =>
      match wait_for_selector with
      | .timeout => .error .fingerprintBanned true
      | .failure m => .error (.navFailure m) false
      | .ok => .ok ⟨false⟩

/-- Embedding of the body of `acquire_page` after `ensure_browser_started`
(the active pair's state is `state`): reuse the stored page unless it is
missing or closed, in which case a fresh warmed page is created
synchronously and stored; a warm-up error propagates and nothing is
handed out. -/
def acquire_page (state : BrowserPairState) (search_type : SearchType)
    (goto wait_for_selector : PwOutcome) :
    Except WarmupError (Page × BrowserPairState) :=
  match pageOf state search_type with
  | some p =>
    if p.isClosed then
      match create_warmed_page state search_type goto wait_for_selector with
      | .ok p2 => .ok (p2, setPageOf state search_type (some p2))
      | .error e _ => .error e
    else .ok (p, state)
  | none =>
    match create_warmed_page state search_type goto wait_for_selector with
    | .ok p2 => .ok (p2, setPageOf state search_type (some p2))
    | .error e _ => .error e

/-- Embedding of the body of `get_bootstrap_page` after
`ensure_browser_started`; the source duplicates the acquire logic of
`acquire_page` (`if not page or page.is_closed()`), so the embedding does
too. -/
def get_bootstrap_page (state : BrowserPairState) (search_type : SearchType)
    (goto wait_for_selector : PwOutcome) :
    Except WarmupError (Page × BrowserPairState) :=
  match pageOf state search_type with
  | some p =>
    if p.isClosed then
      match create_warmed_page state search_type goto wait_for_selector with
      | .ok p2 => .ok (p2, setPageOf state search_type (some p2))
      | .error e _ => .error e
    else .ok (p, state)
  | none =>
    match create_warmed_page state search_type goto wait_for_selector with
    | .ok p2 => .ok (p2, setPageOf state search_type (some p2))
    | .error e _ => .error e

/-- The module-level failover state: both pair states, the active pair key
and the rotation success counter. -/
structure FailoverState where
  webkit : BrowserPairState
  firefox : BrowserPairState
  active : PairKey
  request_counter : Nat
deriving DecidableEq, Repr

/-- `_ROTATION_THRESHOLD` of the source. -/
def ROTATION_THRESHOLD : Nat := 75

/-- `_get_pair_state`. -/
def getPair (s : FailoverState) : PairKey → BrowserPairState
  | .webkit => s.webkit
  | .firefox => s.firefox

/-- Replace one pair state. -/
def setPair (s : FailoverState) (k : PairKey) (p : BrowserPairState) :
    FailoverState :=
  match k with
  | .webkit => { s with webkit := p }
  | .firefox => { s with firefox := p }

/-- The alternate of a pair key (`"firefox" if _active_pair == "webkit" else
"webkit"`). -/
def alternate : PairKey → PairKey
  | .webkit => .firefox
  | .firefox => .webkit

/-- Embedding of `_initialize_pair`: a healthy pair returns unchanged; an
unhealthy pair is first torn down, then either fully initialized (the
`initOk` oracle says whether the launches and warm-ups succeed) or, when
initialization raises, torn down again and the exception propagates (the
Boolean result is `false`). -/
def initialize_pair (p : BrowserPairState) (initOk : Bool) :
    Bool × BrowserPairState :=
  if p.healthy then (true, p)
  else if initOk then (true, initializedPair p.engine)
  else (false, releasedPair p.engine)

/-- Embedding of `_rotate_active_pair`: switch to the alternate pair,
initializing it on demand; when initialization raises, the warning is
logged, the active pair stays unchanged and no error is raised. -/
def rotate_active_pair (s : FailoverState) (initOk : Bool) : FailoverState :=
  let target := alternate s.active
  let tp := getPair s target
  if tp.healthy then { s with active := target }
  else
    match initialize_pair tp initOk with
    | (true, tp2) => { setPair s target tp2 with active := target }
    | (false, tp2) => setPair s target tp2

/-- Embedding of `_record_successful_request`: increment the counter; on
reaching `_ROTATION_THRESHOLD` reset it to zero and rotate. -/
def record_successful_request (s : FailoverState) (initOk : Bool) :
    FailoverState :=
  let c := s.request_counter + 1
  if ROTATION_THRESHOLD ≤ c then
    rotate_active_pair { s with request_counter := 0 } initOk
  else { s with request_counter := c }

/-- Embedding of `_teardown_pair`: close the pages, contexts and browsers,
stop the Playwright manager and clear every field; only the engine key
survives. -/
def teardown_pair (p : BrowserPairState) : BrowserPairState :=
  releasedPair p.engine

/-- Embedding of `shutdown_browser`: tear down each pair that still has a
manager handle or is flagged healthy; fully released pairs are skipped. -/
def shutdown_browser (s : FailoverState) : FailoverState :=
  let w := if s.webkit.manager || s.webkit.healthy then teardown_pair s.webkit
           else s.webkit
  let f := if s.firefox.manager || s.firefox.healthy then teardown_pair s.firefox
           else s.firefox
  { s with webkit := w, firefox := f }

end BrowserManager

/-
Theorems.  Helper lemmas come first, then one theorem per claim (with its
witness or counterexample).
-/

namespace AAClient

/-- Unfolding lemma: a refresh-triggering status in the direct tier refreshes
the cookie bundle and retries with the next response. -/
theorem directLoop_refresh {β : Type} (parse : String → Option β)
    (dir : Nat → HttpResponse) (i fuel : Nat) (t : Trace)
    (h : (dir i).status ∈ REFRESH_STATUS_CODES) :
    directLoop parse dir i (fuel + 1) t =
      directLoop parse dir (i + 1) fuel
        { t with directAttempts := t.directAttempts + 1,
                 directRefreshes := t.directRefreshes + 1 } := by
  simp only [directLoop]
  rw [if_pos h]

/-- Unfolding lemma: a `TargetClosedError` in the fallback tier refreshes the
cookie bundle and retries with the next attempt. -/
theorem fallbackLoop_targetClosed {β : Type} (parse : String → Option β)
    (fb : Nat → FallbackAttempt) (i fuel : Nat) (saw : Bool) (t : Trace)
    (h : fb i = .targetClosed) :
    fallbackLoop parse fb i (fuel + 1) saw t =
      fallbackLoop parse fb (i + 1) fuel true
        { t with fallbackAttempts := t.fallbackAttempts + 1,
                 fallbackRefreshes := t.fallbackRefreshes + 1 } := by
  simp only [fallbackLoop, h]

/-- Unfolding lemma: a fallback response with status at least 400 is a
terminal upstream error after a single fallback attempt. -/
theorem fallbackLoop_response_err {β : Type} (parse : String → Option β)
    (fb : Nat → FallbackAttempt) (i fuel : Nat) (saw : Bool) (t : Trace)
    (sc : Nat) (text : String) (h : fb i = .response (some sc) text)
    (h4 : 400 ≤ sc) :
    fallbackLoop parse fb i (fuel + 1) saw t =
      (.error (.upstreamHttp sc text),
       { t with fallbackAttempts := t.fallbackAttempts + 1 }) := by
  simp only [fallbackLoop, h]
  rw [if_pos h4]

/-- The direct tier never touches the fallback, post-success or notification
counters. -/
theorem directLoop_preserves {β : Type} (parse : String → Option β)
    (dir : Nat → HttpResponse) (fuel : Nat) :
    ∀ (i : Nat) (t : Trace),
      (directLoop parse dir i fuel t).2.fallbackAttempts = t.fallbackAttempts ∧
      (directLoop parse dir i fuel t).2.fallbackRefreshes = t.fallbackRefreshes ∧
      (directLoop parse dir i fuel t).2.postSuccessRefreshes = t.postSuccessRefreshes ∧
      (directLoop parse dir i fuel t).2.successNotifications = t.successNotifications := by
  induction fuel with
  | zero => intro i t; simp [directLoop]
  | succ n ih =>
    intro i t
    by_cases h : (dir i).status ∈ REFRESH_STATUS_CODES
    · rw [directLoop_refresh parse dir i n t h]
      exact ih (i + 1) _
    · simp only [directLoop]
      rw [if_neg h]
      split <;> simp

/-- The fallback tier never touches the direct, post-success or notification
counters. -/
theorem fallbackLoop_preserves {β : Type} (parse : String → Option β)
    (fb : Nat → FallbackAttempt) (fuel : Nat) :
    ∀ (i : Nat) (saw : Bool) (t : Trace),
      (fallbackLoop parse fb i fuel saw t).2.directAttempts = t.directAttempts ∧
      (fallbackLoop parse fb i fuel saw t).2.directRefreshes = t.directRefreshes ∧
      (fallbackLoop parse fb i fuel saw t).2.postSuccessRefreshes = t.postSuccessRefreshes ∧
      (fallbackLoop parse fb i fuel saw t).2.successNotifications = t.successNotifications := by
  induction fuel with
  | zero => intro i saw t; simp [fallbackLoop]
  | succ n ih =>
    intro i saw t
    cases h : fb i with
    | targetClosed =>
      rw [fallbackLoop_targetClosed parse fb i n saw t h]
      exact ih (i + 1) true _
    | notDict => simp [fallbackLoop, h]
    | scriptError m => simp [fallbackLoop, h]
    | response st text =>
      cases st with
      | some sc =>
        simp only [fallbackLoop, h]
        split <;> simp
      | none => simp [fallbackLoop, h]

/-- Membership in the refresh set forces a status of at least 401. -/
theorem refresh_status_ge (s : Nat) (h : s ∈ REFRESH_STATUS_CODES) : 401 ≤ s := by
  simp [REFRESH_STATUS_CODES] at h
  omega

end AAClient

namespace AAClient

/-- Reduction of `get_itinerary` when the direct tier returns or raises. -/
theorem get_itinerary_direct {β : Type} (parse : String → Option β)
    (dir : Nat → HttpResponse) (fb : Nat → FallbackAttempt)
    (r : Except AAError (ItinResult β)) (t : Trace)
    (hd : directLoop parse dir 0 2 {} = (some r, t)) :
    get_itinerary parse dir fb = (r, t) := by
  unfold get_itinerary
  rw [hd]

/-- Reduction of `get_itinerary` when the direct tier falls through and the
fallback tier succeeds: the cached cookie bundle is refreshed once more. -/
theorem get_itinerary_fallback_ok {β : Type} (parse : String → Option β)
    (dir : Nat → HttpResponse) (fb : Nat → FallbackAttempt)
    (t : Trace) (r : ItinResult β) (t2 : Trace)
    (hd : directLoop parse dir 0 2 {} = (none, t))
    (hf : fallbackLoop parse fb 0 3 false t = (.ok r, t2)) :
    get_itinerary parse dir fb =
      (.ok r, { t2 with postSuccessRefreshes := t2.postSuccessRefreshes + 1 }) := by
  unfold get_itinerary
  rw [hd]
  simp only [hf]

/-- Reduction of `get_itinerary` when the direct tier falls through and the
fallback tier raises. -/
theorem get_itinerary_fallback_err {β : Type} (parse : String → Option β)
    (dir : Nat → HttpResponse) (fb : Nat → FallbackAttempt)
    (t : Trace) (e : AAError) (t2 : Trace)
    (hd : directLoop parse dir 0 2 {} = (none, t))
    (hf : fallbackLoop parse fb 0 3 false t = (.error e, t2)) :
    get_itinerary parse dir fb = (.error e, t2) := by
  unfold get_itinerary
  rw [hd]
  simp only [hf]

/-- C1 counterexample: the claim is false on the code.  The refresh set of
`aa_client.py` has four members; neither 460 nor 503 belongs to it, and a
direct-tier response with status 460 is a terminal error after a single
attempt, with no forced cookie refresh and no retry. -/
theorem c1_refresh_set_counterexample :
    ¬ (460 ∈ REFRESH_STATUS_CODES) ∧ ¬ (503 ∈ REFRESH_STATUS_CODES) ∧
    get_itinerary (fun _ => (none : Option Unit)) (fun _ => ⟨460, "body"⟩)
        (fun _ => .notDict) =
      (.error (.upstreamHttp 460 "body"), { directAttempts := 1 }) :=
  ⟨by decide, by decide, rfl⟩

/-- C1 (amended): the refresh-triggering set is exactly 401, 403, 419, 429;
every direct-tier response with a status in this set triggers a forced
cookie refresh followed by a retry (consuming one direct-tier attempt)
rather than a terminal error, and the set does not govern the
browser-fallback tier: there any response status of at least 400 —
refresh-triggering codes included — is terminal on the first fallback
attempt, with no refresh and no retry. -/
theorem c1_refresh_set_amended {β : Type} (parse : String → Option β)
    (dir : Nat → HttpResponse) (fb : Nat → FallbackAttempt) (s : Nat)
    (text : String) (h0 : (dir 0).status ∈ REFRESH_STATUS_CODES)
    (h1 : (dir 1).status ∈ REFRESH_STATUS_CODES)
    (hfb : fb 0 = .response (some s) text) (hs : 400 ≤ s) :
    REFRESH_STATUS_CODES = [401, 403, 419, 429] ∧
    get_itinerary parse dir fb =
      (.error (.upstreamHttp s text),
       { directAttempts := 2, fallbackAttempts := 1, directRefreshes := 2 }) := by
  refine ⟨rfl, ?_⟩
  have hd : directLoop parse dir 0 2 {} =
      (none, { directAttempts := 2, directRefreshes := 2 }) := by
    rw [directLoop_refresh parse dir 0 1 _ h0, directLoop_refresh parse dir 1 0 _ h1]
    rfl
  exact get_itinerary_fallback_err parse dir fb _ _ _ hd
    (fallbackLoop_response_err parse fb 0 2 false _ s text hfb hs)

/-- Witness for the amended C1 at status 403 twice directly and 419 in the
fallback tier. -/
theorem c1_refresh_set_amended_witness :
    REFRESH_STATUS_CODES = [401, 403, 419, 429] ∧
    get_itinerary (fun _ => (none : Option Unit)) (fun _ => ⟨403, "t"⟩)
        (fun _ => .response (some 419) "t") =
      (.error (.upstreamHttp 419 "t"),
       { directAttempts := 2, fallbackAttempts := 1, directRefreshes := 2 }) :=
  c1_refresh_set_amended (fun _ => none) (fun _ => ⟨403, "t"⟩)
    (fun _ => .response (some 419) "t") 419 "t" (by decide) (by decide) rfl
    (by decide)

/-- C2 counterexample: on an all-401 response sequence the direct tier does
perform 2 attempts, but the fallback tier is terminal on its very first
attempt with the per-status upstream error — the 3-attempt fallback budget
is never exhausted by refresh-triggering statuses and no
multiple-attempts error is raised. -/
theorem c2_retry_bound_counterexample :
    get_itinerary (fun _ => (none : Option Unit)) (fun _ => ⟨401, "auth"⟩)
        (fun _ => .response (some 401) "auth") =
      (.error (.upstreamHttp 401 "auth"),
       { directAttempts := 2, fallbackAttempts := 1, directRefreshes := 2 }) := rfl

/-- C2 (amended): when every direct-tier response has a refresh-triggering
status the direct tier performs exactly 2 underlying HTTP attempts; the
fallback tier's 3-attempt budget applies to page-closed
(`TargetClosedError`) failures, and exhausting it raises the
fallback-exhausted error (the source message `Unable to execute fallback
fetch after multiple attempts`) wrapping the last page-closed error,
with exactly 3 fallback attempts performed. -/
theorem c2_retry_bound_amended {β : Type} :
    (∀ (parse : String → Option β) (dir : Nat → HttpResponse)
        (fb : Nat → FallbackAttempt),
      (dir 0).status ∈ REFRESH_STATUS_CODES →
      (dir 1).status ∈ REFRESH_STATUS_CODES →
      (get_itinerary parse dir fb).2.directAttempts = 2) ∧
    (∀ (parse : String → Option β) (dir : Nat → HttpResponse)
        (fb : Nat → FallbackAttempt),
      (dir 0).status ∈ REFRESH_STATUS_CODES →
      (dir 1).status ∈ REFRESH_STATUS_CODES →
      fb 0 = .targetClosed → fb 1 = .targetClosed → fb 2 = .targetClosed →
      get_itinerary parse dir fb =
        (.error (.fallbackExhausted true),
         { directAttempts := 2, fallbackAttempts := 3,
           directRefreshes := 2, fallbackRefreshes := 3 })) := by
  constructor
  · intro parse dir fb h0 h1
    have hd : directLoop parse dir 0 2 {} =
        (none, { directAttempts := 2, directRefreshes := 2 }) := by
      rw [directLoop_refresh parse dir 0 1 _ h0, directLoop_refresh parse dir 1 0 _ h1]
      rfl
    rcases hf : fallbackLoop parse fb 0 3 false
        ({ directAttempts := 2, directRefreshes := 2 } : Trace) with ⟨er, t2⟩
    have hpres := (fallbackLoop_preserves parse fb 3 0 false
      { directAttempts := 2, directRefreshes := 2 }).1
    rw [hf] at hpres
    cases er with
    | ok r =>
      rw [get_itinerary_fallback_ok parse dir fb _ r t2 hd hf]
      exact hpres
    | error e =>
      rw [get_itinerary_fallback_err parse dir fb _ e t2 hd hf]
      exact hpres
  · intro parse dir fb h0 h1 hf0 hf1 hf2
    have hd : directLoop parse dir 0 2 {} =
        (none, { directAttempts := 2, directRefreshes := 2 }) := by
      rw [directLoop_refresh parse dir 0 1 _ h0, directLoop_refresh parse dir 1 0 _ h1]
      rfl
    have hf : fallbackLoop parse fb 0 3 false
        ({ directAttempts := 2, directRefreshes := 2 } : Trace) =
        (.error (.fallbackExhausted true),
         { directAttempts := 2, fallbackAttempts := 3,
           directRefreshes := 2, fallbackRefreshes := 3 }) := by
      rw [fallbackLoop_targetClosed parse fb 0 2 false _ hf0,
          fallbackLoop_targetClosed parse fb 1 1 true _ hf1,
          fallbackLoop_targetClosed parse fb 2 0 true _ hf2]
      rfl
    exact get_itinerary_fallback_err parse dir fb _ _ _ hd hf

/-- Witness for the amended C2: all-429 direct responses and three
page-closed fallback attempts. -/
theorem c2_retry_bound_amended_witness :
    get_itinerary (fun _ => (none : Option Unit)) (fun _ => ⟨429, "x"⟩)
        (fun _ => .targetClosed) =
      (.error (.fallbackExhausted true),
       { directAttempts := 2, fallbackAttempts := 3,
         directRefreshes := 2, fallbackRefreshes := 3 }) :=
  (c2_retry_bound_amended (β := Unit)).2 (fun _ => none) (fun _ => ⟨429, "x"⟩)
    (fun _ => .targetClosed) (by decide) (by decide) rfl rfl rfl

/-- C3 counterexample: a call that succeeds via the browser-fallback tier
performs exactly one post-success cookie refresh, but records zero engine
success notifications — `get_itinerary` never calls
`register_successful_request`, so the rotation success counter is not
incremented (the claim requires exactly one notification). -/
theorem c3_fallback_success_counterexample :
    get_itinerary (fun _ => some ()) (fun _ => ⟨401, "x"⟩)
        (fun _ => .response (some 200) "ok") =
      (.ok ⟨some 200, ()⟩,
       { directAttempts := 2, fallbackAttempts := 1, directRefreshes := 2,
         postSuccessRefreshes := 1 }) ∧
    (get_itinerary (fun _ => some ()) (fun _ => (⟨401, "x"⟩ : HttpResponse))
        (fun _ => .response (some 200) "ok")).2.successNotifications = 0 :=
  ⟨rfl, rfl⟩

/-- C3 (amended): every `get_itinerary` call that succeeds via the
browser-fallback tier performs exactly one cookie refresh after the
success, and no engine-failover success notification is recorded —
`register_successful_request` is never invoked by `get_itinerary`. -/
theorem c3_fallback_success_amended {β : Type} (parse : String → Option β)
    (dir : Nat → HttpResponse) (fb : Nat → FallbackAttempt)
    (r : ItinResult β) (t : Trace)
    (hdirect : (directLoop parse dir 0 2 {}).1 = none)
    (hok : get_itinerary parse dir fb = (.ok r, t)) :
    t.postSuccessRefreshes = 1 ∧ t.successNotifications = 0 := by
  rcases hd : directLoop parse dir 0 2 {} with ⟨o, td⟩
  rw [hd] at hdirect
  have ho : o = none := hdirect
  subst ho
  have hdpAll := directLoop_preserves parse dir 2 0 {}
  rw [hd] at hdpAll
  have hdp1 : td.postSuccessRefreshes = ({} : Trace).postSuccessRefreshes :=
    hdpAll.2.2.1
  have hdp2 : td.successNotifications = ({} : Trace).successNotifications :=
    hdpAll.2.2.2
  rcases hf : fallbackLoop parse fb 0 3 false td with ⟨er, t2⟩
  have hfpAll := fallbackLoop_preserves parse fb 3 0 false td
  rw [hf] at hfpAll
  have hfp1 : t2.postSuccessRefreshes = td.postSuccessRefreshes := hfpAll.2.2.1
  have hfp2 : t2.successNotifications = td.successNotifications := hfpAll.2.2.2
  cases er with
  | ok r2 =>
    rw [get_itinerary_fallback_ok parse dir fb td r2 t2 hd hf] at hok
    have h2 : ({ t2 with postSuccessRefreshes := t2.postSuccessRefreshes + 1 } :
        Trace) = t := congrArg Prod.snd hok
    subst h2
    refine ⟨?_, ?_⟩
    · show t2.postSuccessRefreshes + 1 = 1
      rw [hfp1, hdp1]
    · show t2.successNotifications = 0
      rw [hfp2, hdp2]
  | error e =>
    rw [get_itinerary_fallback_err parse dir fb td e t2 hd hf] at hok
    exact absurd (congrArg Prod.fst hok) (by simp)

/-- Witness for the amended C3 at a concrete fallback-tier success. -/
theorem c3_fallback_success_amended_witness :
    (get_itinerary (fun _ => some ()) (fun _ => (⟨401, "x"⟩ : HttpResponse))
        (fun _ => .response (some 200) "ok")).2.postSuccessRefreshes = 1 ∧
    (get_itinerary (fun _ => some ()) (fun _ => (⟨401, "x"⟩ : HttpResponse))
        (fun _ => .response (some 200) "ok")).2.successNotifications = 0 :=
  c3_fallback_success_amended (fun _ => some ()) (fun _ => ⟨401, "x"⟩)
    (fun _ => .response (some 200) "ok") ⟨some 200, ()⟩ _ rfl rfl


/-- Unfolding lemma: a non-refresh-triggering status terminates the direct
tier on the current attempt. -/
theorem directLoop_step {β : Type} (parse : String → Option β)
    (dir : Nat → HttpResponse) (i fuel : Nat) (t : Trace)
    (hnot : ¬ (dir i).status ∈ REFRESH_STATUS_CODES) :
    directLoop parse dir i (fuel + 1) t =
      (if 400 ≤ (dir i).status then
        (some (.error (.upstreamHttp (dir i).status (dir i).text)),
         { t with directAttempts := t.directAttempts + 1 })
       else
        (some (parseBody parse (some (dir i).status) (dir i).text),
         { t with directAttempts := t.directAttempts + 1 })) := by
  simp only [directLoop]
  rw [if_neg hnot]

/-- C5: in the direct tier, a status of at least 400 outside the refresh set
raises the terminal upstream error immediately, after exactly one HTTP
attempt and with no cookie refresh; a 2xx response with an empty body
raises the terminal empty-body error immediately; a 2xx response whose
non-empty body fails to decode raises the terminal parse error
immediately; and otherwise the parsed result is returned. -/
theorem c5_direct_terminal {β : Type} (parse : String → Option β)
    (dir : Nat → HttpResponse) (fb : Nat → FallbackAttempt) :
    (¬ (dir 0).status ∈ REFRESH_STATUS_CODES → 400 ≤ (dir 0).status →
      get_itinerary parse dir fb =
        (.error (.upstreamHttp (dir 0).status (dir 0).text),
         { directAttempts := 1 })) ∧
    (200 ≤ (dir 0).status → (dir 0).status < 300 → (dir 0).text = "" →
      get_itinerary parse dir fb = (.error .emptyBody, { directAttempts := 1 })) ∧
    (200 ≤ (dir 0).status → (dir 0).status < 300 → (dir 0).text ≠ "" →
      parse (dir 0).text = none →
      get_itinerary parse dir fb = (.error .parseFailure, { directAttempts := 1 })) ∧
    (∀ b, 200 ≤ (dir 0).status → (dir 0).status < 300 → (dir 0).text ≠ "" →
      parse (dir 0).text = some b →
      get_itinerary parse dir fb =
        (.ok ⟨some (dir 0).status, b⟩, { directAttempts := 1 })) := by
  refine ⟨?_, ?_, ?_, ?_⟩
  · intro hnot h4
    have hd : directLoop parse dir 0 2 {} =
        (some (.error (.upstreamHttp (dir 0).status (dir 0).text)),
         { directAttempts := 1 }) := by
      rw [directLoop_step parse dir 0 1 {} hnot, if_pos h4]
    exact get_itinerary_direct parse dir fb _ _ hd
  · intro h2 h3 htext
    have hnot : ¬ (dir 0).status ∈ REFRESH_STATUS_CODES := fun hm =>
      absurd (refresh_status_ge _ hm) (by omega)
    have hd : directLoop parse dir 0 2 {} =
        (some (parseBody parse (some (dir 0).status) (dir 0).text),
         { directAttempts := 1 }) := by
      rw [directLoop_step parse dir 0 1 {} hnot,
          if_neg (by omega : ¬ 400 ≤ (dir 0).status)]
    rw [get_itinerary_direct parse dir fb _ _ hd]
    simp [parseBody, htext]
  · intro h2 h3 htext hparse
    have hnot : ¬ (dir 0).status ∈ REFRESH_STATUS_CODES := fun hm =>
      absurd (refresh_status_ge _ hm) (by omega)
    have hd : directLoop parse dir 0 2 {} =
        (some (parseBody parse (some (dir 0).status) (dir 0).text),
         { directAttempts := 1 }) := by
      rw [directLoop_step parse dir 0 1 {} hnot,
          if_neg (by omega : ¬ 400 ≤ (dir 0).status)]
    rw [get_itinerary_direct parse dir fb _ _ hd]
    simp [parseBody, htext, hparse]
  · intro b h2 h3 htext hparse
    have hnot : ¬ (dir 0).status ∈ REFRESH_STATUS_CODES := fun hm =>
      absurd (refresh_status_ge _ hm) (by omega)
    have hd : directLoop parse dir 0 2 {} =
        (some (parseBody parse (some (dir 0).status) (dir 0).text),
         { directAttempts := 1 }) := by
      rw [directLoop_step parse dir 0 1 {} hnot,
          if_neg (by omega : ¬ 400 ≤ (dir 0).status)]
    rw [get_itinerary_direct parse dir fb _ _ hd]
    simp [parseBody, htext, hparse]

/-- Witness for C5 at a terminal 500 response. -/
theorem c5_direct_terminal_witness :
    get_itinerary (fun _ => (none : Option Unit)) (fun _ => ⟨500, "oops"⟩)
        (fun _ => .notDict) =
      (.error (.upstreamHttp 500 "oops"), { directAttempts := 1 }) :=
  (c5_direct_terminal (fun _ => none) (fun _ => ⟨500, "oops"⟩)
      (fun _ => .notDict)).1 (by decide) (by decide)

/-- C10: the payload built by `_build_payload` has exactly one slice whose
origin and destination are the uppercased input codes, and its
`tripOptions.searchType` is `Award` exactly when the award flag is set and
`Revenue` otherwise, for inputs of arbitrary casing. -/
theorem c10_payload_upper (origin destination date : String) (passengers : Nat)
    (award_search : Bool) :
    (build_payload origin destination date passengers award_search).slices =
      [{ allCarriers := true, cabin := "", departureDate := date,
         destination := destination.toUpper, destinationNearbyAirports := false,
         maxStops := none, origin := origin.toUpper,
         originNearbyAirports := false }] ∧
    (build_payload origin destination date passengers
        award_search).tripOptions.searchType =
      (if award_search then "Award" else "Revenue") :=
  ⟨rfl, rfl⟩

end AAClient

namespace BrowserManager

/-- A page returned by a successful warm-up is open. -/
theorem create_warmed_page_open (state : BrowserPairState) (st : SearchType)
    (goto wsel : PwOutcome) (p : Page)
    (h : create_warmed_page state st goto wsel = .ok p) : p.isClosed = false := by
  unfold create_warmed_page at h
  split at h
  next => exact absurd h (by simp)
  next =>
    cases goto with
    | timeout => exact absurd h (by simp)
    | failure m => exact absurd h (by simp)
    | ok =>
      cases wsel with
      | timeout => exact absurd h (by simp)
      | failure m => exact absurd h (by simp)
      | ok => cases h; rfl

/-- An acquired page is open (core property shared by `acquire_page` and
`get_bootstrap_page`, whose bodies are identical). -/
theorem acquire_page_open (state : BrowserPairState) (st : SearchType)
    (goto wsel : PwOutcome) (p : Page) (s2 : BrowserPairState)
    (h : acquire_page state st goto wsel = .ok (p, s2)) : p.isClosed = false := by
  unfold acquire_page at h
  split at h
  next p0 hp =>
    split at h
    next hclosed =>
      split at h
      next p2 heq =>
        simp only [Except.ok.injEq, Prod.mk.injEq] at h
        rw [← h.1]
        exact create_warmed_page_open state st goto wsel p2 heq
      next e b heq => simp at h
    next hclosed =>
      simp only [Except.ok.injEq, Prod.mk.injEq] at h
      rw [← h.1]
      simp only [Bool.not_eq_true] at hclosed
      exact hclosed
  next hp =>
    split at h
    next p2 heq =>
      simp only [Except.ok.injEq, Prod.mk.injEq] at h
      rw [← h.1]
      exact create_warmed_page_open state st goto wsel p2 heq
    next e b heq => simp at h

/-- Resetting the request counter leaves both pair states unchanged. -/
theorem getPair_set_counter (s : FailoverState) (n : Nat) (k : PairKey) :
    getPair { s with request_counter := n } k = getPair s k := by
  cases k <;> rfl

/-- Rotation never touches the request counter. -/
theorem rotate_request_counter (s : FailoverState) (initOk : Bool) :
    (rotate_active_pair s initOk).request_counter = s.request_counter := by
  simp only [rotate_active_pair]
  split
  · rfl
  · split
    next tp2 heq => cases halt : alternate s.active <;> rfl
    next tp2 heq => cases halt : alternate s.active <;> rfl

/-- Rotation switches to the alternate pair when it is healthy or can be
initialized. -/
theorem rotate_active_switch (s : FailoverState) (initOk : Bool)
    (h : (getPair s (alternate s.active)).healthy = true ∨ initOk = true) :
    (rotate_active_pair s initOk).active = alternate s.active := by
  simp only [rotate_active_pair]
  split
  next hh => rfl
  next hh =>
    have hio : initOk = true := by
      rcases h with h | h
      · exact absurd h hh
      · exact h
    subst hio
    split
    next tp2 heq => cases halt : alternate s.active <;> rfl
    next tp2 heq =>
      exfalso
      unfold initialize_pair at heq
      rw [if_neg hh, if_pos rfl] at heq
      exact absurd heq (by simp)

/-- Rotation leaves the active pair unchanged when the alternate is
unhealthy and cannot be initialized. -/
theorem rotate_active_unchanged (s : FailoverState) (initOk : Bool)
    (hh : (getPair s (alternate s.active)).healthy = false)
    (hio : initOk = false) :
    (rotate_active_pair s initOk).active = s.active := by
  subst hio
  simp only [rotate_active_pair]
  rw [if_neg (by simp [hh])]
  have heq : initialize_pair (getPair s (alternate s.active)) false =
      (false, releasedPair (getPair s (alternate s.active)).engine) := by
    unfold initialize_pair
    rw [if_neg (by simp [hh]), if_neg (by simp)]
  rw [heq]
  cases halt : alternate s.active <;> rfl

/-- C6: one recorded success below the threshold only increments the counter;
the success that reaches the threshold (75) resets the counter to zero and
switches the active pair to the alternate — initializing it on demand when
it is unhealthy — and when the alternate cannot be initialized the active
pair identifier stays unchanged while no error is raised (the embedding is
a total function, mirroring the caught-and-logged exception in
`_rotate_active_pair`). -/
theorem c6_rotation_threshold (s : FailoverState) (initOk : Bool) :
    (s.request_counter + 1 < ROTATION_THRESHOLD →
      record_successful_request s initOk =
        { s with request_counter := s.request_counter + 1 }) ∧
    (ROTATION_THRESHOLD ≤ s.request_counter + 1 →
      (record_successful_request s initOk).request_counter = 0 ∧
      ((getPair s (alternate s.active)).healthy = true ∨ initOk = true →
        (record_successful_request s initOk).active = alternate s.active) ∧
      ((getPair s (alternate s.active)).healthy = false → initOk = false →
        (record_successful_request s initOk).active = s.active)) := by
  constructor
  · intro hlt
    unfold record_successful_request
    rw [if_neg (by omega : ¬ ROTATION_THRESHOLD ≤ s.request_counter + 1)]
  · intro hge
    unfold record_successful_request
    rw [if_pos hge]
    refine ⟨?_, ?_, ?_⟩
    · rw [rotate_request_counter]
    · intro h
      have h' : (getPair { s with request_counter := 0 }
            (alternate ({ s with request_counter := 0 } : FailoverState).active)).healthy
            = true ∨ initOk = true := by
        rw [getPair_set_counter]
        exact h
      exact rotate_active_switch { s with request_counter := 0 } initOk h'
    · intro hh hio
      have hh' : (getPair { s with request_counter := 0 }
            (alternate ({ s with request_counter := 0 } : FailoverState).active)).healthy
            = false := by
        rw [getPair_set_counter]
        exact hh
      exact rotate_active_unchanged { s with request_counter := 0 } initOk hh' hio

/-- Witness for C6: counter at 74 and a healthy alternate — the 75th success
resets the counter and switches WebKit to Firefox. -/
theorem c6_rotation_threshold_witness :
    (record_successful_request
        ⟨initializedPair .webkit, initializedPair .firefox, .webkit, 74⟩
        true).request_counter = 0 ∧
    (record_successful_request
        ⟨initializedPair .webkit, initializedPair .firefox, .webkit, 74⟩
        true).active = .firefox :=
  ⟨((c6_rotation_threshold
      ⟨initializedPair .webkit, initializedPair .firefox, .webkit, 74⟩ true).2
      (by decide)).1,
   ((c6_rotation_threshold
      ⟨initializedPair .webkit, initializedPair .firefox, .webkit, 74⟩ true).2
      (by decide)).2.1 (Or.inl (by decide))⟩

/-- C7 counterexample: the `except TimeoutError` in `_create_warmed_page`
also catches a timeout raised by the navigation itself (`page.goto`) — a
navigation error unrelated to the marker-selector wait — and still raises
the fingerprint-ban exception, refuting the part of the claim stating
that the ban kind is never raised for navigation errors unrelated to the
marker wait. -/
theorem c7_fingerprint_ban_counterexample :
    create_warmed_page (initializedPair .webkit) .award .timeout .ok =
      .error .fingerprintBanned true := rfl

/-- C7 (amended): a timeout of the bounded wait for the post-navigation
marker selector raises the fingerprint-ban exception after closing the
page; a timeout during the navigation itself is classified the same way;
and every non-timeout failure of the navigation or of the marker wait
propagates as an ordinary error, never as the ban kind. -/
theorem c7_fingerprint_ban_amended (state : BrowserPairState)
    (st : SearchType) (goto wsel : PwOutcome)
    (hctx : contextOf state st = true) :
    (goto = .ok → wsel = .timeout →
      create_warmed_page state st goto wsel = .error .fingerprintBanned true) ∧
    (∀ m, goto = .failure m →
      create_warmed_page state st goto wsel = .error (.navFailure m) false) ∧
    (∀ m, goto = .ok → wsel = .failure m →
      create_warmed_page state st goto wsel = .error (.navFailure m) false) ∧
    (goto = .timeout →
      create_warmed_page state st goto wsel = .error .fingerprintBanned true) := by
  refine ⟨?_, ?_, ?_, ?_⟩ <;> intros <;> subst_vars <;>
    simp [create_warmed_page, hctx]

/-- Witness for the amended C7: the marker-selector wait timing out on a
fully initialized WebKit pair. -/
theorem c7_fingerprint_ban_amended_witness :
    create_warmed_page (initializedPair .webkit) .award .ok .timeout =
      .error .fingerprintBanned true :=
  (c7_fingerprint_ban_amended (initializedPair .webkit) .award .ok .timeout
      rfl).1 rfl rfl

/-- C8: every successful acquire operation — `acquire_page` or
`get_bootstrap_page`, for either search category — hands out a page with
`isClosed = false` at the moment of return; a missing or closed stored
page is replaced by a freshly created warmed page before being handed
out, and a failed warm-up propagates the error, so no closed handle ever
leaves the pool. -/
theorem c8_no_closed_handle (state : BrowserPairState) (st : SearchType)
    (goto wsel : PwOutcome) :
    (∀ p s2, acquire_page state st goto wsel = .ok (p, s2) →
      p.isClosed = false) ∧
    (∀ p s2, get_bootstrap_page state st goto wsel = .ok (p, s2) →
      p.isClosed = false) :=
  ⟨fun p s2 h => acquire_page_open state st goto wsel p s2 h,
   fun p s2 h => acquire_page_open state st goto wsel p s2 h⟩

/-- Witness for C8: a closed stored award page is replaced by a fresh open
page, and the handle handed out is open. -/
theorem c8_no_closed_handle_witness :
    (Page.mk false).isClosed = false :=
  (c8_no_closed_handle
      { initializedPair .webkit with award_page := some ⟨true⟩ }
      .award .ok .ok).1 ⟨false⟩
    (setPageOf { initializedPair .webkit with award_page := some ⟨true⟩ }
      .award (some ⟨false⟩)) rfl

/-- Fully released pairs make `shutdown_browser` a no-op. -/
theorem shutdown_noop (x : FailoverState)
    (hwm : x.webkit.manager = false) (hwh : x.webkit.healthy = false)
    (hfm : x.firefox.manager = false) (hfh : x.firefox.healthy = false) :
    shutdown_browser x = x := by
  unfold shutdown_browser
  rw [hwm, hwh, hfm, hfh]
  rfl

/-- C9: one `shutdown_browser` call releases every pair that still holds a
manager handle or is flagged healthy — so all pages, contexts, browsers
and the engine runtime of each pair are released regardless of the health
flag, under the module invariant that a pair with no manager and no
health flag is already fully released — and a second call leaves the
state unchanged; the embedding is a total function, so no error is
raised. -/
theorem c9_shutdown_idempotent (s : FailoverState)
    (hw : s.webkit.manager = false → s.webkit.healthy = false →
      s.webkit = releasedPair s.webkit.engine)
    (hf : s.firefox.manager = false → s.firefox.healthy = false →
      s.firefox = releasedPair s.firefox.engine) :
    (shutdown_browser s).webkit = releasedPair s.webkit.engine ∧
    (shutdown_browser s).firefox = releasedPair s.firefox.engine ∧
    shutdown_browser (shutdown_browser s) = shutdown_browser s := by
  have h1 : (shutdown_browser s).webkit = releasedPair s.webkit.engine := by
    unfold shutdown_browser teardown_pair
    by_cases h : (s.webkit.manager || s.webkit.healthy) = true
    · simp [h]
    · simp only [Bool.or_eq_true, not_or, Bool.not_eq_true] at h
      rw [h.1, h.2]
      exact hw h.1 h.2
  have h2 : (shutdown_browser s).firefox = releasedPair s.firefox.engine := by
    unfold shutdown_browser teardown_pair
    by_cases h : (s.firefox.manager || s.firefox.healthy) = true
    · simp [h]
    · simp only [Bool.or_eq_true, not_or, Bool.not_eq_true] at h
      rw [h.1, h.2]
      exact hf h.1 h.2
  refine ⟨h1, h2, shutdown_noop (shutdown_browser s) ?_ ?_ ?_ ?_⟩
  · rw [h1]; rfl
  · rw [h1]; rfl
  · rw [h2]; rfl
  · rw [h2]; rfl

/-- Witness for C9 at a live WebKit pair and an already-released Firefox
pair. -/
theorem c9_shutdown_idempotent_witness :
    (shutdown_browser
        ⟨initializedPair .webkit, releasedPair .firefox, .webkit, 5⟩).webkit =
      releasedPair .webkit ∧
    (shutdown_browser
        ⟨initializedPair .webkit, releasedPair .firefox, .webkit, 5⟩).firefox =
      releasedPair .firefox ∧
    shutdown_browser (shutdown_browser
        ⟨initializedPair .webkit, releasedPair .firefox, .webkit, 5⟩) =
      shutdown_browser
        ⟨initializedPair .webkit, releasedPair .firefox, .webkit, 5⟩ :=
  c9_shutdown_idempotent
    ⟨initializedPair .webkit, releasedPair .firefox, .webkit, 5⟩
    (by intro h; simp [initializedPair] at h)
    (fun _ _ => rfl)

end BrowserManager

namespace CookieManager

/-- Setting an existing index stores the new value there. -/
theorem get?_set_self {α : Type} {l : List α} {i : Nat} {a : α} (b : α)
    (h : l.get? i = some a) : (l.set i b).get? i = some b := by
  rw [List.get?_set_eq, h]
  rfl

/-- Reading the updated list elsewhere gives the old entry. -/
theorem get?_set_cases {α : Type} {l : List α} {i : Nat} {a b : α} {j : Nat}
    {x : α} (hget : l.get? i = some a) (h : (l.set i b).get? j = some x) :
    (j = i ∧ x = b) ∨ (j ≠ i ∧ l.get? j = some x) := by
  by_cases hij : i = j
  · subst hij
    rw [get?_set_self b hget] at h
    exact Or.inl ⟨rfl, by injection h with h; exact h.symm⟩
  · right
    refine ⟨fun hji => hij hji.symm, ?_⟩
    rw [List.get?_set_ne b _ hij] at h
    exact h

/-- Reading through `notifyAll` applies `notifyPC` pointwise. -/
theorem get?_notifyAll (l : List TaskPC) (j : Nat) :
    (notifyAll l).get? j = (l.get? j).map notifyPC :=
  List.get?_map _ _ _

/-- Case analysis for reads after a set followed by `notifyAll`. -/
theorem get?_notify_set_cases {l : List TaskPC} {i j : Nat} {a b x : TaskPC}
    (hget : l.get? i = some a)
    (h : (notifyAll (l.set i b)).get? j = some x) :
    (j = i ∧ x = notifyPC b) ∨
    (j ≠ i ∧ ∃ y, l.get? j = some y ∧ x = notifyPC y) := by
  rw [get?_notifyAll] at h
  cases hx : (l.set i b).get? j with
  | none => rw [hx] at h; cases h
  | some y =>
    rw [hx] at h
    injection h with h
    rcases get?_set_cases hget hx with ⟨hj, hy⟩ | ⟨hj, hy⟩
    · exact Or.inl ⟨hj, by rw [← h, hy]⟩
    · exact Or.inr ⟨hj, y, hy, h.symm⟩

/-- All entries of a replicated list equal the replicated element. -/
theorem get?_replicate_eq {α : Type} {a x : α} {n i : Nat}
    (h : (List.replicate n a).get? i = some x) : x = a :=
  List.eq_of_mem_replicate (List.get?_mem h)

/-- Notification preserves the in-flight classification. -/
theorem notifyPC_inFlight (pc : TaskPC) : inFlight (notifyPC pc) = inFlight pc := by
  cases pc <;> rfl

/-- Notification preserves the `get_cookies`-only classification. -/
theorem notifyPC_getOnly (pc : TaskPC) : getOnly (notifyPC pc) = getOnly pc := by
  cases pc <;> rfl

/-- Only `netRefresh` is notified to `netRefresh`. -/
theorem notifyPC_eq_netRefresh {pc : TaskPC} (h : notifyPC pc = .netRefresh) :
    pc = .netRefresh := by
  cases pc <;> simp_all [notifyPC]

/-- Only `netDone` is notified to `netDone`. -/
theorem notifyPC_eq_netDone {pc : TaskPC} {r : Option Nat}
    (h : notifyPC pc = .netDone r) : pc = .netDone r := by
  cases pc <;> simp_all [notifyPC]

/-- Only `finished` is notified to `finished`. -/
theorem notifyPC_eq_finished {pc : TaskPC} {r : CallResult}
    (h : notifyPC pc = .finished r) : pc = .finished r := by
  cases pc <;> simp_all [notifyPC]

end CookieManager

namespace CookieManager

/-- Replacing one task with a quiescent (not in-flight, `get_cookies`-side)
program point while leaving the shared state untouched preserves the
invariant; a newly finished task must carry the unique bundle. -/
theorem inv_set_quiet (f : Nat → Nat) (s : CMState) (i : Nat) (hs : Inv f s)
    (pc npc : TaskPC) (hpc : s.tasks.get? i = some pc)
    (hnfNew : inFlight npc = false) (hgNew : getOnly npc = true)
    (hfin : ∀ r, npc = .finished r → r = .ok (f 0) ∧ s.refreshCount = 1) :
    Inv f { s with tasks := s.tasks.set i npc } := by
  refine
    { allGet := ?_, countLe := hs.countLe, cookiesVal := hs.cookiesVal,
      refrCookies := hs.refrCookies, flightUnique := ?_, flightRefr := ?_,
      netRefreshZero := ?_, netDoneVal := ?_, doneVal := ?_,
      oneState := hs.oneState }
  · intro j pc' hj
    rcases get?_set_cases hpc hj with ⟨-, hx⟩ | ⟨-, hx⟩
    · rw [hx]; exact hgNew
    · exact hs.allGet j pc' hx
  · intro j k pcj pck hj hk hfj hfk
    rcases get?_set_cases hpc hj with ⟨hji, hx⟩ | ⟨hji, hx⟩
    · exfalso
      rw [hx, hnfNew] at hfj
      exact Bool.false_ne_true hfj
    · rcases get?_set_cases hpc hk with ⟨hki, hy⟩ | ⟨hki, hy⟩
      · exfalso
        rw [hy, hnfNew] at hfk
        exact Bool.false_ne_true hfk
      · exact hs.flightUnique j k pcj pck hx hy hfj hfk
  · intro j pc' hj hf
    rcases get?_set_cases hpc hj with ⟨-, hx⟩ | ⟨-, hx⟩
    · exfalso
      rw [hx, hnfNew] at hf
      exact Bool.false_ne_true hf
    · exact hs.flightRefr j pc' hx hf
  · intro j hj
    rcases get?_set_cases hpc hj with ⟨-, hx⟩ | ⟨-, hx⟩
    · exfalso
      rw [← hx] at hnfNew
      simp [inFlight] at hnfNew
    · exact hs.netRefreshZero j hx
  · intro j r hj
    rcases get?_set_cases hpc hj with ⟨-, hx⟩ | ⟨-, hx⟩
    · exfalso
      rw [← hx] at hnfNew
      simp [inFlight] at hnfNew
    · exact hs.netDoneVal j r hx
  · intro j r hj
    rcases get?_set_cases hpc hj with ⟨-, hx⟩ | ⟨-, hx⟩
    · exact hfin r hx.symm
    · exact hs.doneVal j r hx

/-- Claiming the refresh (setting the flag and moving the task to the
network-refresh point) from an empty cache with no refresh in flight
preserves the invariant. -/
theorem inv_claim_refresh (f : Nat → Nat) (s : CMState) (i : Nat) (hs : Inv f s)
    (pc : TaskPC) (hpc : s.tasks.get? i = some pc)
    (hc : s.cookies = none) (hr : s.refreshing = false) :
    Inv f { s with refreshing := true, tasks := s.tasks.set i .netRefresh } := by
  have hcount0 : s.refreshCount = 0 := by
    have hle := hs.countLe
    rcases Nat.eq_or_lt_of_le hle with h1 | h1
    · exfalso
      rcases hs.oneState h1 with h2 | h2
      · rw [hr] at h2
        exact Bool.false_ne_true h2
      · rw [hc] at h2
        exact Option.noConfusion h2
    · omega
  refine
    { allGet := ?_, countLe := hs.countLe, cookiesVal := ?_,
      refrCookies := fun _ => hc, flightUnique := ?_,
      flightRefr := fun _ _ _ _ => rfl, netRefreshZero := fun _ _ => hcount0,
      netDoneVal := ?_, doneVal := ?_, oneState := fun _ => Or.inl rfl }
  · intro j pc' hj
    rcases get?_set_cases hpc hj with ⟨-, hx⟩ | ⟨-, hx⟩
    · rw [hx]; rfl
    · exact hs.allGet j pc' hx
  · intro b hb
    have hb' : s.cookies = some b := hb
    rw [hc] at hb'
    exact Option.noConfusion hb'
  · intro j k pcj pck hj hk hfj hfk
    rcases get?_set_cases hpc hj with ⟨hji, hx⟩ | ⟨hji, hx⟩
    · rcases get?_set_cases hpc hk with ⟨hki, hy⟩ | ⟨hki, hy⟩
      · rw [hji, hki]
      · exfalso
        have hRefr := hs.flightRefr k pck hy hfk
        rw [hr] at hRefr
        exact Bool.false_ne_true hRefr
    · exfalso
      have hRefr := hs.flightRefr j pcj hx hfj
      rw [hr] at hRefr
      exact Bool.false_ne_true hRefr
  · intro j r hj
    rcases get?_set_cases hpc hj with ⟨-, hx⟩ | ⟨-, hx⟩
    · exact TaskPC.noConfusion hx
    · exact hs.netDoneVal j r hx
  · intro j r hj
    rcases get?_set_cases hpc hj with ⟨-, hx⟩ | ⟨-, hx⟩
    · exact TaskPC.noConfusion hx
    · exact hs.doneVal j r hx

/-- Executing the network refresh under an always-succeeding oracle
preserves the invariant: the refresher consumes oracle index zero and
moves to the final critical section carrying the unique bundle. -/
theorem inv_net_exec (f : Nat → Nat) (s : CMState) (i : Nat) (hs : Inv f s)
    (hpc : s.tasks.get? i = some .netRefresh) :
    Inv f { s with refreshCount := s.refreshCount + 1,
                   tasks := s.tasks.set i (.netDone (some (f s.refreshCount))) } := by
  have hzero : s.refreshCount = 0 := hs.netRefreshZero i hpc
  have hrefr : s.refreshing = true := hs.flightRefr i _ hpc rfl
  have hcook : s.cookies = none := hs.refrCookies hrefr
  refine
    { allGet := ?_, countLe := by show s.refreshCount + 1 ≤ 1; omega,
      cookiesVal := ?_,
      refrCookies := fun _ => hcook, flightUnique := ?_,
      flightRefr := fun _ _ _ _ => hrefr, netRefreshZero := ?_,
      netDoneVal := ?_, doneVal := ?_, oneState := fun _ => Or.inl hrefr }
  · intro j pc' hj
    rcases get?_set_cases hpc hj with ⟨-, hx⟩ | ⟨-, hx⟩
    · rw [hx]; rfl
    · exact hs.allGet j pc' hx
  · intro b hb
    have hb' : s.cookies = some b := hb
    rw [hcook] at hb'
    exact Option.noConfusion hb'
  · intro j k pcj pck hj hk hfj hfk
    rcases get?_set_cases hpc hj with ⟨hji, hx⟩ | ⟨hji, hx⟩
    · rcases get?_set_cases hpc hk with ⟨hki, hy⟩ | ⟨hki, hy⟩
      · rw [hji, hki]
      · exact absurd (hs.flightUnique k i pck .netRefresh hy hpc hfk rfl) hki
    · rcases get?_set_cases hpc hk with ⟨hki, hy⟩ | ⟨hki, hy⟩
      · exact absurd (hs.flightUnique j i pcj .netRefresh hx hpc hfj rfl) hji
      · exact hs.flightUnique j k pcj pck hx hy hfj hfk
  · intro j hj
    rcases get?_set_cases hpc hj with ⟨-, hx⟩ | ⟨hji, hx⟩
    · exact TaskPC.noConfusion hx
    · exact absurd (hs.flightUnique j i .netRefresh .netRefresh hx hpc rfl rfl) hji
  · intro j r hj
    rcases get?_set_cases hpc hj with ⟨-, hx⟩ | ⟨hji, hx⟩
    · injection hx with h
      rw [hzero] at h
      exact ⟨h, by show s.refreshCount + 1 = 1; omega⟩
    · exact absurd (hs.flightUnique j i (.netDone r) .netRefresh hx hpc rfl rfl) hji
  · intro j r hj
    rcases get?_set_cases hpc hj with ⟨-, hx⟩ | ⟨-, hx⟩
    · exact TaskPC.noConfusion hx
    · exact ⟨(hs.doneVal j r hx).1, by show s.refreshCount + 1 = 1; omega⟩

/-- Completing a successful refresh (storing the bundle, clearing the flag,
notifying all waiters and returning) preserves the invariant. -/
theorem inv_net_done (f : Nat → Nat) (s : CMState) (i : Nat) (hs : Inv f s)
    (hpc : s.tasks.get? i = some (.netDone (some (f 0))))
    (hcount : s.refreshCount = 1) :
    Inv f { s with cookies := some (f 0), refreshing := false,
                   tasks := notifyAll (s.tasks.set i (.finished (.ok (f 0)))) } := by
  have hnone : ∀ j pc', (notifyAll (s.tasks.set i (.finished (.ok (f 0))))).get? j
      = some pc' → inFlight pc' = false := by
    intro j pc' hj
    rcases get?_notify_set_cases hpc hj with ⟨-, hx⟩ | ⟨hji, y, hy, hx⟩
    · rw [hx]; rfl
    · rw [hx, notifyPC_inFlight]
      cases hfy : inFlight y with
      | false => rfl
      | true => exact absurd (hs.flightUnique j i y _ hy hpc hfy rfl) hji
  refine
    { allGet := ?_, countLe := hs.countLe, cookiesVal := ?_, refrCookies := ?_,
      flightUnique := ?_, flightRefr := ?_, netRefreshZero := ?_,
      netDoneVal := ?_, doneVal := ?_, oneState := fun _ => Or.inr rfl }
  · intro j pc' hj
    rcases get?_notify_set_cases hpc hj with ⟨-, hx⟩ | ⟨-, y, hy, hx⟩
    · rw [hx]; rfl
    · rw [hx, notifyPC_getOnly]
      exact hs.allGet j y hy
  · intro b hb
    have hb' : some (f 0) = some b := hb
    injection hb' with h
    exact ⟨h.symm, hcount⟩
  · intro h
    exact absurd h (by simp)
  · intro j k pcj pck hj hk hfj hfk
    exfalso
    rw [hnone j pcj hj] at hfj
    exact Bool.false_ne_true hfj
  · intro j pc' hj hf
    exfalso
    rw [hnone j pc' hj] at hf
    exact Bool.false_ne_true hf
  · intro j hj
    rcases get?_notify_set_cases hpc hj with ⟨-, hx⟩ | ⟨hji, y, hy, hx⟩
    · exact TaskPC.noConfusion hx
    · have hy' : y = .netRefresh := notifyPC_eq_netRefresh hx.symm
      rw [hy'] at hy
      exact absurd (hs.flightUnique j i .netRefresh _ hy hpc rfl rfl) hji
  · intro j r hj
    rcases get?_notify_set_cases hpc hj with ⟨-, hx⟩ | ⟨hji, y, hy, hx⟩
    · exact TaskPC.noConfusion hx
    · have hy' : y = .netDone r := notifyPC_eq_netDone hx.symm
      rw [hy'] at hy
      exact absurd (hs.flightUnique j i (.netDone r) _ hy hpc rfl rfl) hji
  · intro j r hj
    rcases get?_notify_set_cases hpc hj with ⟨-, hx⟩ | ⟨hji, y, hy, hx⟩
    · have hx' : TaskPC.finished r = .finished (.ok (f 0)) := hx
      injection hx' with h
      exact ⟨h, hcount⟩
    · have hy' : y = .finished r := notifyPC_eq_finished hx.symm
      rw [hy'] at hy
      exact hs.doneVal j r hy

end CookieManager

namespace CookieManager

/-- One scheduler step under an always-succeeding oracle preserves the
invariant of `get_cookies`-only configurations. -/
theorem inv_step (f : Nat → Nat) (s : CMState) (i : Nat) (hs : Inv f s) :
    Inv f (step (fun k => some (f k)) s i) := by
  unfold step
  cases hpc : s.tasks.get? i with
  | none => exact hs
  | some pc =>
    have hgo : getOnly pc = true := hs.allGet i pc hpc
    cases pc with
    | rStart => simp [getOnly] at hgo
    | rWaiting => simp [getOnly] at hgo
    | rWoken => simp [getOnly] at hgo
    | gWaiting => exact hs
    | finished r => exact hs
    | gStart =>
      simp only [stepPC]
      cases hc : s.cookies with
      | some b =>
        cases hr : s.refreshing with
        | false =>
          have h := inv_set_quiet f s i hs .gStart (.finished (.ok b)) hpc rfl rfl
            (fun r hr' => by
              injection hr' with h2
              obtain ⟨hb, h1⟩ := hs.cookiesVal b hc
              rw [← h2, hb]
              exact ⟨rfl, h1⟩)
          rw [hc, hr] at h
          exact h
        | true =>
          have h := inv_set_quiet f s i hs .gStart .gWaiting hpc rfl rfl
            (fun r hr' => TaskPC.noConfusion hr')
          rw [hc, hr] at h
          exact h
      | none =>
        cases hr : s.refreshing with
        | false =>
          have h := inv_claim_refresh f s i hs .gStart hpc hc hr
          rw [hc] at h
          exact h
        | true =>
          have h := inv_set_quiet f s i hs .gStart .gWaiting hpc rfl rfl
            (fun r hr' => TaskPC.noConfusion hr')
          rw [hc, hr] at h
          exact h
    | gWoken =>
      simp only [stepPC]
      cases hc : s.cookies with
      | some b =>
        cases hr : s.refreshing with
        | false =>
          have h := inv_set_quiet f s i hs .gWoken (.finished (.ok b)) hpc rfl rfl
            (fun r hr' => by
              injection hr' with h2
              obtain ⟨hb, h1⟩ := hs.cookiesVal b hc
              rw [← h2, hb]
              exact ⟨rfl, h1⟩)
          rw [hc, hr] at h
          exact h
        | true =>
          have h := inv_set_quiet f s i hs .gWoken .gWaiting hpc rfl rfl
            (fun r hr' => TaskPC.noConfusion hr')
          rw [hc, hr] at h
          exact h
      | none =>
        cases hr : s.refreshing with
        | false =>
          have h := inv_claim_refresh f s i hs .gWoken hpc hc hr
          rw [hc] at h
          exact h
        | true =>
          have h := inv_set_quiet f s i hs .gWoken .gWaiting hpc rfl rfl
            (fun r hr' => TaskPC.noConfusion hr')
          rw [hc, hr] at h
          exact h
    | netRefresh =>
      simp only [stepPC]
      exact inv_net_exec f s i hs hpc
    | netDone r =>
      obtain ⟨hr0, hcount⟩ := hs.netDoneVal i r hpc
      subst hr0
      simp only [stepPC]
      exact inv_net_done f s i hs hpc hcount

/-- A whole schedule preserves the invariant. -/
theorem inv_run (f : Nat → Nat) (s : CMState) (hs : Inv f s)
    (sched : List Nat) : Inv f (run (fun k => some (f k)) s sched) := by
  induction sched generalizing s with
  | nil => exact hs
  | cons i rest ih => exact ih _ (inv_step f s i hs)

/-- The initial state of `n` concurrent `get_cookies` callers with an empty
cache satisfies the invariant. -/
theorem inv_init (f : Nat → Nat) (n : Nat) : Inv f (initGet n) := by
  refine
    { allGet := ?_, countLe := by show (0 : Nat) ≤ 1; decide, cookiesVal := ?_,
      refrCookies := fun _ => rfl, flightUnique := ?_, flightRefr := ?_,
      netRefreshZero := fun _ _ => rfl, netDoneVal := ?_, doneVal := ?_,
      oneState := ?_ }
  · intro j pc hj
    rw [get?_replicate_eq hj]
    rfl
  · intro b hb
    exact Option.noConfusion hb
  · intro j k pcj pck hj hk hfj hfk
    exfalso
    rw [get?_replicate_eq hj] at hfj
    exact Bool.false_ne_true hfj
  · intro j pc hj hf
    exfalso
    rw [get?_replicate_eq hj] at hf
    exact Bool.false_ne_true hf
  · intro j r hj
    exact TaskPC.noConfusion (get?_replicate_eq hj)
  · intro j r hj
    exact TaskPC.noConfusion (get?_replicate_eq hj)
  · intro h
    exact absurd (show (0 : Nat) = 1 from h) (by decide)

end CookieManager

namespace CookieManager

/-- C4 counterexample: both halves of the claim fail on the code.  First
run: two concurrent `refresh_cookies` callers overlapping one refresh
cycle (the second arrives while the first caller's network refresh is in
flight and waits) perform two underlying network refreshes and return
different bundles (100 and 101).  Second run: with a first refresh that
fails, the failure propagates only to the caller that performed it; the
waiter of that cycle is woken, retries the refresh itself (a second
network refresh) and returns a bundle instead of receiving the
failure. -/
theorem c4_single_flight_counterexample :
    run (fun k => some (100 + k)) (initRefresh 2) [0, 1, 0, 0, 1, 1, 1] =
      ⟨some 101, false, 2, [.finished (.ok 100), .finished (.ok 101)]⟩ ∧
    run (fun k => if k = 0 then none else some 7) (initGet 2)
        [0, 1, 0, 0, 1, 1, 1] =
      ⟨some 7, false, 2, [.finished .raised, .finished (.ok 7)]⟩ :=
  ⟨rfl, rfl⟩

/-- C4 (amended): for any number of concurrent `get_cookies` callers
overlapping one refresh cycle that starts from an empty cache, under any
interleaving and with a succeeding refresh, at most one underlying
network refresh executes, and every caller that completes returns the
identical resulting bundle (the outcome of the single refresh), with
exactly one refresh having executed by then.  When a network refresh
fails, the failure propagates to the caller that performed it and the
refreshing flag is cleared, so a subsequent or waiting caller may retry;
waiting callers are woken and retry the refresh themselves rather than
receiving the failure, as the concrete woken-waiter run shows. -/
theorem c4_single_flight_amended :
    (∀ (f : Nat → Nat) (n : Nat) (sched : List Nat),
      (run (fun k => some (f k)) (initGet n) sched).refreshCount ≤ 1 ∧
      (∀ i r, (run (fun k => some (f k)) (initGet n) sched).tasks.get? i =
          some (.finished r) →
        r = .ok (f 0) ∧
        (run (fun k => some (f k)) (initGet n) sched).refreshCount = 1)) ∧
    (∀ (oracle : Nat → Option Nat) (s : CMState) (j : Nat),
      s.tasks.get? j = some (.netDone none) →
      (step oracle s j).refreshing = false ∧
      (step oracle s j).tasks.get? j = some (.finished .raised)) ∧
    run (fun k => if k = 0 then none else some 7) (initGet 2)
        [0, 1, 0, 0, 1, 1, 1] =
      ⟨some 7, false, 2, [.finished .raised, .finished (.ok 7)]⟩ := by
  refine ⟨?_, ?_, rfl⟩
  · intro f n sched
    have hinv := inv_run f (initGet n) (inv_init f n) sched
    exact ⟨hinv.countLe, fun i r h => hinv.doneVal i r h⟩
  · intro oracle s j hj
    have hstep : step oracle s j =
        { s with refreshing := false,
                 tasks := notifyAll (s.tasks.set j (.finished .raised)) } := by
      unfold step
      rw [hj]
      rfl
    constructor
    · rw [hstep]
    · rw [hstep]
      show (notifyAll (s.tasks.set j (.finished .raised))).get? j = _
      rw [get?_notifyAll, get?_set_self _ hj]
      rfl

/-- Witness for the amended C4: a single `get_cookies` caller run to
completion performs exactly one network refresh and returns its
bundle. -/
theorem c4_single_flight_amended_witness :
    CallResult.ok 0 = CallResult.ok 0 ∧
    (run (fun k => some k) (initGet 1) [0, 0, 0]).refreshCount = 1 :=
  (c4_single_flight_amended.1 (fun k => k) 1 [0, 0, 0]).2 0 (.ok 0) rfl

end CookieManager
